import Mathlib

/-!
Verification of the ctf-sync example script backend
(`examples/script_backend.py`) against its natural-language specification.

The backend reads one JSON document from its input stream, dispatches on the
`action` field, writes one JSON document to its output stream on the three
recognized actions, and otherwise writes a diagnostic JSON document to the
error stream and exits with status 1.

Modelling resolutions (Python runtime semantics made explicit):
* decoded JSON values are `Json` below; JSON numbers are modelled as integers
  (every number in the program and its data is an integer);
* `dict.get` returns the value `None` when the key is absent, so
  `Request.get` is total and returns `Json.null` for an absent key; a JSON
  object with a duplicated key keeps the last binding, as `json.load` does;
* the f-string `unknown action: \x7baction\x7d` renders the value with the
  Python `str` conversion (`pyStrOf`): `None` renders as `None`, a string
  renders as itself, nested lists and dicts render with `repr`; `pyRepr`
  simplifies the `repr` of a string to single quotes around the raw
  characters, without the escaping rules for special characters, which no
  value in the program exercises;
* `challenge_id not in correct_flags` hashes `challenge_id`; a decoded list
  or dict is unhashable, so that membership test raises `TypeError`; an
  unhandled exception prints a traceback (not JSON) to the error stream and
  the process exits with status 1 (modelled by the `exc` field);
* an input stream that is not a parsable JSON document makes `json.load`
  raise `json.decoder.JSONDecodeError`, and a parsed document that is not an
  object makes `req.get` raise `AttributeError`; both are unhandled.
-/

/-- A decoded JSON value, as produced by the Python `json.load`. -/
inductive Json where
  | null : Json
  | bool (b : Bool) : Json
  | num (n : Int) : Json
  | str (s : String) : Json
  | arr (elems : List Json) : Json
  | obj (fields : List (String × Json)) : Json

mutual

/-- Boolean equality of decoded JSON values. -/
def Json.beq : Json → Json → Bool
  | .null, .null => true
  | .bool a, .bool b => a == b
  | .num a, .num b => a == b
  | .str a, .str b => a == b
  | .arr a, .arr b => Json.beqList a b
  | .obj a, .obj b => Json.beqFields a b
  | _, _ => false

/-- Boolean equality of lists of decoded JSON values. -/
def Json.beqList : List Json → List Json → Bool
  | [], [] => true
  | a :: as, b :: bs => Json.beq a b && Json.beqList as bs
  | _, _ => false

/-- Boolean equality of lists of object fields. -/
def Json.beqFields : List (String × Json) → List (String × Json) → Bool
  | [], [] => true
  | (k, v) :: as, (l, w) :: bs => k == l && Json.beq v w && Json.beqFields as bs
  | _, _ => false

end

mutual

theorem Json.eq_of_beq : ∀ a b : Json, Json.beq a b = true → a = b
  | .null, b, h => by cases b <;> simp_all [Json.beq]
  | .bool a, b, h => by cases b <;> simp_all [Json.beq]
  | .num a, b, h => by cases b <;> simp_all [Json.beq]
  | .str a, b, h => by cases b <;> simp_all [Json.beq]
  | .arr a, b, h => by
      cases b with
      | arr bs => rw [Json.eqList_of_beq a bs (by simpa [Json.beq] using h)]
      | _ => simp_all [Json.beq]
  | .obj a, b, h => by
      cases b with
      | obj bs => rw [Json.eqFields_of_beq a bs (by simpa [Json.beq] using h)]
      | _ => simp_all [Json.beq]

theorem Json.eqList_of_beq : ∀ a b : List Json, Json.beqList a b = true → a = b
  | [], b, h => by cases b <;> simp_all [Json.beqList]
  | x :: xs, b, h => by
      cases b with
      | nil => simp_all [Json.beqList]
      | cons y ys =>
          have hh := h
          simp only [Json.beqList, Bool.and_eq_true] at hh
          rw [Json.eq_of_beq x y hh.1, Json.eqList_of_beq xs ys hh.2]

theorem Json.eqFields_of_beq :
    ∀ a b : List (String × Json), Json.beqFields a b = true → a = b
  | [], b, h => by cases b <;> simp_all [Json.beqFields]
  | (k, v) :: xs, b, h => by
      cases b with
      | nil => simp_all [Json.beqFields]
      | cons y ys =>
          obtain ⟨l, w⟩ := y
          have hh := h
          simp only [Json.beqFields, Bool.and_eq_true, beq_iff_eq] at hh
          rw [hh.1.1, Json.eq_of_beq v w hh.1.2, Json.eqFields_of_beq xs ys hh.2]

end

mutual

theorem Json.beq_refl : ∀ a : Json, Json.beq a a = true
  | .null => rfl
  | .bool a => by simp [Json.beq]
  | .num a => by simp [Json.beq]
  | .str a => by simp [Json.beq]
  | .arr a => by simpa [Json.beq] using Json.beqList_refl a
  | .obj a => by simpa [Json.beq] using Json.beqFields_refl a

theorem Json.beqList_refl : ∀ a : List Json, Json.beqList a a = true
  | [] => rfl
  | x :: xs => by
      simp only [Json.beqList, Bool.and_eq_true]
      exact ⟨Json.beq_refl x, Json.beqList_refl xs⟩

theorem Json.beqFields_refl : ∀ a : List (String × Json), Json.beqFields a a = true
  | [] => rfl
  | (k, v) :: xs => by
      simp only [Json.beqFields, Bool.and_eq_true, beq_self_eq_true, true_and]
      exact ⟨Json.beq_refl v, Json.beqFields_refl xs⟩

end

instance : DecidableEq Json := fun a b =>
  if h : Json.beq a b = true then .isTrue (Json.eq_of_beq a b h)
  else .isFalse (fun hh => h (hh ▸ Json.beq_refl a))

mutual

/-- The Python `repr` rendering of a decoded JSON value (simplified for
strings: single quotes around the raw characters, no escaping). -/
def pyRepr : Json → String
  | .null => "None"
  | .bool true => "True"
  | .bool false => "False"
  | .num n => toString n
  | .str s => "\x27" ++ s ++ "\x27"
  | .arr xs => "[" ++ pyReprElems xs ++ "]"
  | .obj kvs => "\x7b" ++ pyReprFields kvs ++ "\x7d"

/-- Comma-separated `repr` of list elements. -/
def pyReprElems : List Json → String
  | [] => ""
  | [v] => pyRepr v
  | v :: vs => pyRepr v ++ ", " ++ pyReprElems vs

/-- Comma-separated `repr` of dict entries. -/
def pyReprFields : List (String × Json) → String
  | [] => ""
  | [(k, v)] => "\x27" ++ k ++ "\x27: " ++ pyRepr v
  | (k, v) :: kvs => "\x27" ++ k ++ "\x27: " ++ pyRepr v ++ ", " ++ pyReprFields kvs

end

/-- The Python `str` conversion used by an f-string: a string renders as
itself, every other value renders as its `repr`. -/
def pyStrOf : Json → String
  | .str s => s
  | v => pyRepr v

/-- The Python `==` between a decoded JSON value and a string literal:
true exactly when the value is that string. -/
def pyEqStr : Json → String → Bool
  | .str s, t => s == t
  | _, _ => false

/-- Whether a decoded JSON value is hashable in Python: decoded lists and
dicts are not, everything else the decoder produces is. -/
def hashable : Json → Bool
  | .arr _ => false
  | .obj _ => false
  | _ => true

/-- A decoded JSON object, i.e. a request. -/
def Request : Type := List (String × Json)

/-- The Python `req.get(k)`: the value of the last binding of `k` (a JSON
object with a duplicated key keeps the last), or `None` when absent. -/
def Request.get (req : Request) (k : String) : Json :=
  match req.reverse.lookup k with
  | some v => v
  | none => .null

/-- Lookup of a hashable decoded value in a dict with string keys, as used
by `correct_flags[challenge_id]`: succeeds exactly when the value is a
string equal to some key. -/
def dictLookup (v : Json) (d : List (String × String)) : Option String :=
  match v with
  | .str s => d.lookup s
  | _ => none

/-- The observable outcome of one backend invocation: the JSON documents
printed to the output stream, the JSON documents printed to the error
stream, the exit status, and the name of the unhandled exception whose
traceback went to the error stream, when one was raised. -/
structure ProcResult where
  stdout : List Json
  stderr : List Json
  exitCode : Nat
  exc : Option String
deriving DecidableEq

namespace ScriptBackend

/-- The hard-coded flag table of the submit handler. -/
def correct_flags : List (String × String) :=
  [("1", "FLAG\x7bhello\x7d"), ("2", "FLAG\x7bview_source\x7d")]

/-- The first hard-coded challenge of the fetch handler. -/
def challenge1 : Json :=
  .obj [("id", .str "1"), ("name", .str "sanity check"), ("category", .str "misc"),
        ("description", .str "flag is FLAG\x7bhello\x7d"), ("points", .num 50),
        ("files", .arr [])]

/-- The second hard-coded challenge of the fetch handler. -/
def challenge2 : Json :=
  .obj [("id", .str "2"), ("name", .str "baby web"), ("category", .str "web"),
        ("description", .str "look at the source"), ("points", .num 100),
        ("files", .arr [.obj [("name", .str "index.html"),
                              ("url", .str "https://example.com/index.html")]])]

/-- The challenge list printed by the fetch handler. -/
def fetchChallenges : List Json := [challenge1, challenge2]

/-- The solve list printed by the solves handler. -/
def solveRecords : List Json :=
  [.obj [("challenge_id", .str "1"), ("solved_at", .str "2025-01-01T12:00:00Z")]]

/-- The `main` function of `examples/script_backend.py`, applied to the
decoded request object. -/
def main (req : Request) : ProcResult :=
  let action := req.get "action"
  if pyEqStr action "fetch" then
    ⟨[.obj [("challenges", .arr fetchChallenges)]], [], 0, none⟩
  else if pyEqStr action "submit" then
    let challenge_id := req.get "challenge_id"
    let flag := req.get "flag"
    if hashable challenge_id then
      match dictLookup challenge_id correct_flags with
      | none =>
        ⟨[.obj [("status", .str "error"), ("message", .str "unknown challenge")]],
         [], 0, none⟩
      | some canonical =>
        if pyEqStr flag canonical then
          ⟨[.obj [("status", .str "accepted"), ("message", .str "correct!")]],
           [], 0, none⟩
        else
          ⟨[.obj [("status", .str "rejected"), ("message", .str "wrong flag")]],
           [], 0, none⟩
    else
      ⟨[], [], 1, some "TypeError"⟩
  else if pyEqStr action "solves" then
    ⟨[.obj [("solves", .arr solveRecords)]], [], 0, none⟩
  else
    ⟨[], [.obj [("error", .str ("unknown action: " ++ pyStrOf action))]], 1, none⟩

/-- What the input stream held: either no parsable JSON document, or one
decoded JSON value. -/
inductive StdinDoc where
  | malformed : StdinDoc
  | parsed (v : Json) : StdinDoc

/-- One whole invocation of the backend process: `json.load` on the input
stream, then `main`. A malformed input makes `json.load` raise, and a
parsed document that is not an object makes `req.get` raise; unhandled
exceptions print a traceback to the error stream and exit with status 1. -/
def runBackend : StdinDoc → ProcResult
  | .malformed => ⟨[], [], 1, some "json.decoder.JSONDecodeError"⟩
  | .parsed (.obj kvs) => main kvs
  | .parsed _ => ⟨[], [], 1, some "AttributeError"⟩

end ScriptBackend

/-! Spec-side predicates: the wire shapes of section 3 of the specification
and the status of a submit response, used to state the claims. -/

/-- Whether the field `k` of a JSON object is present with a string value. -/
def isStrField (kvs : List (String × Json)) (k : String) : Bool :=
  match kvs.lookup k with
  | some (.str _) => true
  | _ => false

/-- The FileRef shape of the specification: an object with string fields
`name` and `url`. -/
def isFileRef : Json → Bool
  | .obj kvs => isStrField kvs "name" && isStrField kvs "url"
  | _ => false

/-- The Challenge shape of the specification: an object with string fields
`id`, `name`, `category`, `description`, an integer field `points` that is
not negative, and a field `files` holding a sequence of FileRef. -/
def isChallengeShape : Json → Bool
  | .obj kvs =>
    isStrField kvs "id" && isStrField kvs "name" && isStrField kvs "category" &&
    isStrField kvs "description" &&
    (match kvs.lookup "points" with
     | some (.num n) => decide (0 ≤ n)
     | _ => false) &&
    (match kvs.lookup "files" with
     | some (.arr fs) => fs.all isFileRef
     | _ => false)
  | _ => false

/-- The `id` field of a serialized challenge, when present as a string. -/
def challengeIdOf : Json → Option String
  | .obj kvs =>
    match kvs.lookup "id" with
    | some (.str s) => some s
    | _ => none
  | _ => none

/-- The SolveRecord shape of the specification: an object with string fields
`challenge_id` and `solved_at`. -/
def isSolveRecord : Json → Bool
  | .obj kvs => isStrField kvs "challenge_id" && isStrField kvs "solved_at"
  | _ => false

/-- The `solved_at` field of a serialized solve record, when present as a
string. -/
def solvedAtOf : Json → Option String
  | .obj kvs =>
    match kvs.lookup "solved_at" with
    | some (.str s) => some s
    | _ => none
  | _ => none

/-- The numeric value of two decimal digit characters. -/
def twoDigits (a b : Char) : Nat :=
  10 * (a.toNat - 48) + (b.toNat - 48)

/-- The number of days of a month in the proleptic Gregorian calendar. -/
def daysInMonth (year month : Nat) : Nat :=
  if month = 2 then
    if year % 4 = 0 ∧ (year % 100 ≠ 0 ∨ year % 400 = 0) then 29 else 28
  else if month = 4 ∨ month = 6 ∨ month = 9 ∨ month = 11 then 30
  else 31

/-- Whether a string is a valid ISO-8601 UTC timestamp in the extended
calendar format with seconds precision and the Z designator, i.e.
YYYY-MM-DDThh:mm:ssZ with a valid calendar date and time of day. -/
def isIso8601UTC (s : String) : Bool :=
  match s.toList with
  | [y1, y2, y3, y4, p1, m1, m2, p2, d1, d2, p3, h1, h2, p4, n1, n2, p5, s1, s2, p6] =>
    [y1, y2, y3, y4, m1, m2, d1, d2, h1, h2, n1, n2, s1, s2].all Char.isDigit &&
    p1 == Char.ofNat 45 && p2 == Char.ofNat 45 && p3 == Char.ofNat 84 &&
    p4 == Char.ofNat 58 && p5 == Char.ofNat 58 && p6 == Char.ofNat 90 &&
    (let year := 100 * twoDigits y1 y2 + twoDigits y3 y4
     let month := twoDigits m1 m2
     let day := twoDigits d1 d2
     decide (1 ≤ month) && decide (month ≤ 12) &&
     decide (1 ≤ day) && decide (day ≤ daysInMonth year month) &&
     decide (twoDigits h1 h2 ≤ 23) && decide (twoDigits n1 n2 ≤ 59) &&
     decide (twoDigits s1 s2 ≤ 59))
  | _ => false

/-- The `status` field of the single JSON document a submit request leaves
on the output stream, when there is exactly one and the field is a string. -/
def responseStatus (r : ProcResult) : Option String :=
  match r.stdout with
  | [.obj kvs] =>
    match kvs.lookup "status" with
    | some (.str s) => some s
    | _ => none
  | _ => none


/-! Helper lemmas shared by several claim proofs. -/

theorem pyEqStr_eq_false_of_ne (v : Json) (t : String) (h : v ≠ .str t) :
    pyEqStr v t = false := by
  cases v <;> simp_all [pyEqStr]

/-! Claim theorems. -/

/-- C1: for every submit request, challenge 1 with flag FLAG\x7bhello\x7d is
accepted with message correct!, challenge 1 with flag WRONG is rejected with
message wrong flag, and challenge 99 with any flag yields status error with
message unknown challenge; each response is the only document written to the
output stream and the process exits with status 0. -/
theorem submit_fixed_table (req : Request)
    (ha : req.get "action" = .str "submit") :
    (req.get "challenge_id" = .str "1" → req.get "flag" = .str "FLAG\x7bhello\x7d" →
      ScriptBackend.main req =
        ⟨[.obj [("status", .str "accepted"), ("message", .str "correct!")]], [], 0, none⟩) ∧
    (req.get "challenge_id" = .str "1" → req.get "flag" = .str "WRONG" →
      ScriptBackend.main req =
        ⟨[.obj [("status", .str "rejected"), ("message", .str "wrong flag")]], [], 0, none⟩) ∧
    (req.get "challenge_id" = .str "99" →
      ScriptBackend.main req =
        ⟨[.obj [("status", .str "error"), ("message", .str "unknown challenge")]], [], 0, none⟩) := by
  refine ⟨fun hc hf => ?_, fun hc hf => ?_, fun hc => ?_⟩
  · simp [ScriptBackend.main, ha, hc, hf, pyEqStr, hashable, dictLookup,
      ScriptBackend.correct_flags]
  · simp [ScriptBackend.main, ha, hc, hf, pyEqStr, hashable, dictLookup,
      ScriptBackend.correct_flags]
  · simp [ScriptBackend.main, ha, hc, pyEqStr, hashable, dictLookup,
      ScriptBackend.correct_flags, List.lookup]

/-- Witness for C1 at the three concrete requests of the correctness table. -/
theorem submit_fixed_table_witness :
    ScriptBackend.main
        [("action", .str "submit"), ("challenge_id", .str "1"), ("flag", .str "FLAG\x7bhello\x7d")] =
      ⟨[.obj [("status", .str "accepted"), ("message", .str "correct!")]], [], 0, none⟩ ∧
    ScriptBackend.main
        [("action", .str "submit"), ("challenge_id", .str "1"), ("flag", .str "WRONG")] =
      ⟨[.obj [("status", .str "rejected"), ("message", .str "wrong flag")]], [], 0, none⟩ ∧
    ScriptBackend.main
        [("action", .str "submit"), ("challenge_id", .str "99"), ("flag", .str "x")] =
      ⟨[.obj [("status", .str "error"), ("message", .str "unknown challenge")]], [], 0, none⟩ :=
  by refine ⟨(submit_fixed_table _ ?_).1 rfl rfl, (submit_fixed_table _ ?_).2.1 rfl rfl,
       (submit_fixed_table _ ?_).2.2 rfl⟩ <;> rfl

/-- C2: for every request whose action field is not one of fetch, submit,
solves (a request with the field absent has action value null and meets the
hypothesis), the process writes no JSON document to the output stream,
writes the single diagnostic object with key error and value unknown
action: followed by the rendering of the action value to the error stream,
and exits with the non-zero status 1. -/
theorem unknown_action_diagnostic (req : Request)
    (h : ∀ s ∈ ["fetch", "submit", "solves"], req.get "action" ≠ Json.str s) :
    ScriptBackend.main req =
      ⟨[], [.obj [("error", .str ("unknown action: " ++ pyStrOf (req.get "action")))]],
       1, none⟩ := by
  have hf := pyEqStr_eq_false_of_ne _ "fetch" (h "fetch" (by simp))
  have hs := pyEqStr_eq_false_of_ne _ "submit" (h "submit" (by simp))
  have hv := pyEqStr_eq_false_of_ne _ "solves" (h "solves" (by simp))
  simp [ScriptBackend.main, hf, hs, hv]

/-- Witness for C2 at the request with action nope. -/
theorem unknown_action_diagnostic_witness :
    ScriptBackend.main [("action", .str "nope")] =
      ⟨[], [.obj [("error", .str "unknown action: nope")]], 1, none⟩ :=
  (unknown_action_diagnostic [("action", .str "nope")] (by decide)).trans (by decide)

/-- C3: for every fetch request, the response is the single challenges
document whose sequence has exactly 2 entries with ids 1 and 2, the ids are
unique within the sequence, and every entry matches the Challenge shape
with all fields present, points a non-negative integer and files a sequence
of FileRef. -/
theorem fetch_response_shape (req : Request)
    (ha : req.get "action" = .str "fetch") :
    ScriptBackend.main req =
      ⟨[.obj [("challenges", .arr ScriptBackend.fetchChallenges)]], [], 0, none⟩ ∧
    ScriptBackend.fetchChallenges.length = 2 ∧
    ScriptBackend.fetchChallenges.map challengeIdOf = [some "1", some "2"] ∧
    (ScriptBackend.fetchChallenges.map challengeIdOf).Nodup ∧
    ScriptBackend.fetchChallenges.all isChallengeShape = true :=
  ⟨by simp [ScriptBackend.main, ha, pyEqStr], by decide, by decide, by decide, by decide⟩

/-- Witness for C3 at the request with action fetch. -/
theorem fetch_response_shape_witness :
    ScriptBackend.main [("action", .str "fetch")] =
      ⟨[.obj [("challenges", .arr ScriptBackend.fetchChallenges)]], [], 0, none⟩ ∧
    ScriptBackend.fetchChallenges.all isChallengeShape = true :=
  ⟨(fetch_response_shape [("action", .str "fetch")] rfl).1,
   (fetch_response_shape [("action", .str "fetch")] rfl).2.2.2.2⟩

/-- C4: for every submit request naming a known challenge and carrying a
string flag, the response status is accepted exactly when the flag equals
the canonical flag of that challenge character for character, and rejected
otherwise; no normalization or trimming takes place. -/
theorem flag_comparison_exact (req : Request) (cid canon flag : String)
    (hknown : ScriptBackend.correct_flags.lookup cid = some canon)
    (ha : req.get "action" = .str "submit")
    (hc : req.get "challenge_id" = .str cid)
    (hf : req.get "flag" = .str flag) :
    (responseStatus (ScriptBackend.main req) = some "accepted" ↔ flag = canon) ∧
    (flag ≠ canon → responseStatus (ScriptBackend.main req) = some "rejected") := by
  have hmain : ScriptBackend.main req =
      if flag == canon then
        ⟨[.obj [("status", .str "accepted"), ("message", .str "correct!")]], [], 0, none⟩
      else
        ⟨[.obj [("status", .str "rejected"), ("message", .str "wrong flag")]], [], 0, none⟩ := by
    simp [ScriptBackend.main, ha, hc, hf, pyEqStr, hashable, dictLookup, hknown]
  by_cases h : flag = canon
  · subst h
    rw [hmain]
    simp [responseStatus, List.lookup]
  · rw [hmain]
    simp [responseStatus, List.lookup, h, beq_eq_false_iff_ne.mpr h]

/-- Witness for C4 at challenge 2 with its canonical flag and with a wrong
flag. -/
theorem flag_comparison_exact_witness :
    responseStatus (ScriptBackend.main
      [("action", .str "submit"), ("challenge_id", .str "2"),
       ("flag", .str "FLAG\x7bview_source\x7d")]) = some "accepted" ∧
    responseStatus (ScriptBackend.main
      [("action", .str "submit"), ("challenge_id", .str "2"),
       ("flag", .str "flag\x7bview_source\x7d")]) = some "rejected" := by
  refine ⟨(flag_comparison_exact _ "2" "FLAG\x7bview_source\x7d" "FLAG\x7bview_source\x7d"
       ?_ ?_ ?_ ?_).1.mpr rfl,
     (flag_comparison_exact _ "2" "FLAG\x7bview_source\x7d" "flag\x7bview_source\x7d"
       ?_ ?_ ?_ ?_).2 (by decide)⟩ <;> rfl

/-- C5 counterexample: the request with action submit and challenge_id an
empty JSON array is recognized and dispatched to the submit handler, yet
the membership test challenge_id not in correct_flags hashes the list,
raises TypeError, and the process exits with the non-zero status 1, so the
exit status is not 0 for every request whose action is one of the three
recognized values. -/
theorem exit_status_zero_cex :
    Request.get [("action", .str "submit"), ("challenge_id", .arr [])] "action" =
      .str "submit" ∧
    (ScriptBackend.main [("action", .str "submit"), ("challenge_id", .arr [])]).exitCode ≠ 0 ∧
    ScriptBackend.main [("action", .str "submit"), ("challenge_id", .arr [])] =
      ⟨[], [], 1, some "TypeError"⟩ := by
  decide

/-- C5 amended: the exit status is 0 exactly when the action is one of
fetch, submit, solves and, when it is submit, the challenge_id value is
hashable (not a JSON array or object); in particular submit requests whose
response status is rejected or error still exit with status 0, while a
missing or unrecognized action exits non-zero, as does the unhandled
TypeError raised by a submit request whose challenge_id is an array or an
object. -/
theorem exit_status_classification (req : Request) :
    (ScriptBackend.main req).exitCode = 0 ↔
      ((req.get "action" = .str "fetch" ∨ req.get "action" = .str "submit" ∨
        req.get "action" = .str "solves") ∧
       (req.get "action" = .str "submit" → hashable (req.get "challenge_id") = true)) := by
  have d1 : pyEqStr (Json.str "submit") "fetch" = false := rfl
  have d2 : pyEqStr (Json.str "submit") "submit" = true := by decide
  cases hv : req.get "action" with
  | str s =>
    by_cases hf : s = "fetch"
    · subst hf; simp [ScriptBackend.main, hv, pyEqStr]
    · by_cases hs : s = "submit"
      · subst hs
        cases hh : hashable (req.get "challenge_id") with
        | false => simp [ScriptBackend.main, hv, d1, d2, hh]
        | true =>
          cases hd : dictLookup (req.get "challenge_id") ScriptBackend.correct_flags with
          | none => simp [ScriptBackend.main, hv, d1, d2, hh, hd]
          | some canon =>
            cases hfl : pyEqStr (req.get "flag") canon with
            | false => simp [ScriptBackend.main, hv, d1, d2, hh, hd, hfl]
            | true => simp [ScriptBackend.main, hv, d1, d2, hh, hd, hfl]
      · by_cases hsol : s = "solves"
        · subst hsol; simp [ScriptBackend.main, hv, pyEqStr]
        · simp [ScriptBackend.main, hv, pyEqStr, hf, hs, hsol]
  | null => simp [ScriptBackend.main, hv, pyEqStr]
  | bool b => simp [ScriptBackend.main, hv, pyEqStr]
  | num n => simp [ScriptBackend.main, hv, pyEqStr]
  | arr xs => simp [ScriptBackend.main, hv, pyEqStr]
  | obj kvs => simp [ScriptBackend.main, hv, pyEqStr]

/-- Witness for C5 amended at a rejected submit request, which still exits
with status 0. -/
theorem exit_status_classification_witness :
    (ScriptBackend.main
      [("action", .str "submit"), ("challenge_id", .str "1"), ("flag", .str "WRONG")]).exitCode =
      0 :=
  (exit_status_classification _).mpr (by decide)

/-- C6 counterexample: at the request with no action field the diagnostic
written to the error stream is the object with value unknown action: None,
not the object with value unknown action: followed by nothing, because the
Python f-string renders the None returned by req.get as the four characters
None. -/
theorem absent_action_render_cex :
    (ScriptBackend.main []).stderr ≠ [.obj [("error", .str "unknown action: ")]] ∧
    (ScriptBackend.main []).stderr = [.obj [("error", .str "unknown action: None")]] := by
  decide

/-- C6 amended: for every request whose action field is absent (so req.get
returns None), the diagnostic JSON object written to the error stream
renders the action value as None, i.e. it is exactly the object with key
error and value unknown action: None, nothing is written to the output
stream, and the process exits with status 1. -/
theorem absent_action_renders_none (req : Request)
    (h : req.get "action" = .null) :
    ScriptBackend.main req =
      ⟨[], [.obj [("error", .str "unknown action: None")]], 1, none⟩ := by
  simp [ScriptBackend.main, h, pyEqStr, pyStrOf, pyRepr]

/-- Witness for C6 amended at the empty request object. -/
theorem absent_action_renders_none_witness :
    ScriptBackend.main [] =
      ⟨[], [.obj [("error", .str "unknown action: None")]], 1, none⟩ :=
  absent_action_renders_none [] rfl

/-- C7: for the fixed backend state, fetch and solves are deterministic and
idempotent — any two requests that both carry action fetch, or both carry
action solves, produce identical whole outcomes — and any two submit
requests that agree on the challenge_id value and on the flag value produce
identical whole outcomes, so in particular the same status. -/
theorem deterministic_dispatch (r1 r2 : Request) :
    ((r1.get "action" = .str "fetch" ∧ r2.get "action" = .str "fetch") →
      ScriptBackend.main r1 = ScriptBackend.main r2) ∧
    ((r1.get "action" = .str "solves" ∧ r2.get "action" = .str "solves") →
      ScriptBackend.main r1 = ScriptBackend.main r2) ∧
    ((r1.get "action" = .str "submit" ∧ r2.get "action" = .str "submit" ∧
      r1.get "challenge_id" = r2.get "challenge_id" ∧ r1.get "flag" = r2.get "flag") →
      ScriptBackend.main r1 = ScriptBackend.main r2) := by
  refine ⟨fun ⟨h1, h2⟩ => ?_, fun ⟨h1, h2⟩ => ?_, fun ⟨h1, h2, hc, hf⟩ => ?_⟩
  · simp [ScriptBackend.main, h1, h2, pyEqStr]
  · simp [ScriptBackend.main, h1, h2, pyEqStr]
  · simp only [ScriptBackend.main, h1, h2, hc, hf]

/-- Witness for C7: two distinct fetch requests produce the same outcome. -/
theorem deterministic_dispatch_witness :
    ScriptBackend.main [("action", .str "fetch")] =
      ScriptBackend.main [("action", .str "fetch"), ("extra", .num 1)] :=
  (deterministic_dispatch _ _).1 ⟨rfl, rfl⟩

/-- C8: for every solves request, the response is the single solves
document, every entry of its sequence matches the SolveRecord shape with
string fields challenge_id and solved_at, and every solved_at value is a
valid ISO-8601 UTC timestamp. -/
theorem solves_response_valid (req : Request)
    (ha : req.get "action" = .str "solves") :
    ScriptBackend.main req =
      ⟨[.obj [("solves", .arr ScriptBackend.solveRecords)]], [], 0, none⟩ ∧
    ScriptBackend.solveRecords.all
      (fun r => isSolveRecord r &&
        (match solvedAtOf r with
         | some t => isIso8601UTC t
         | none => false)) = true :=
  ⟨by simp [ScriptBackend.main, ha, pyEqStr], by decide⟩

/-- Witness for C8 at the request with action solves. -/
theorem solves_response_valid_witness :
    ScriptBackend.main [("action", .str "solves")] =
      ⟨[.obj [("solves", .arr ScriptBackend.solveRecords)]], [], 0, none⟩ :=
  (solves_response_valid [("action", .str "solves")] rfl).1

/-- C9: when the input stream holds no parsable JSON document, the
invocation fails fatally: json.load raises, no JSON document is written to
the output stream, the unhandled exception puts a diagnostic traceback on
the error stream, the process exits with the non-zero status 1, and no
response of any kind is produced, so no partial recovery happens. -/
theorem malformed_input_fatal :
    (ScriptBackend.runBackend .malformed).stdout = [] ∧
    (ScriptBackend.runBackend .malformed).stderr = [] ∧
    (ScriptBackend.runBackend .malformed).exc.isSome = true ∧
    (ScriptBackend.runBackend .malformed).exitCode ≠ 0 := by
  decide

/-- C10: the submit handler is total over absent action-specific fields:
with challenge_id absent (req.get returns None, which is not a key of the
flag table) the response is status error with message unknown challenge,
and with a known challenge_id but flag absent (req.get returns None, which
equals no canonical flag string) the response is status rejected with
message wrong flag; in both cases exactly one JSON document goes to the
output stream, nothing goes to the error stream, and the process exits with
status 0. -/
theorem submit_total_on_absent_fields (req : Request)
    (ha : req.get "action" = .str "submit") :
    (req.get "challenge_id" = .null →
      ScriptBackend.main req =
        ⟨[.obj [("status", .str "error"), ("message", .str "unknown challenge")]], [], 0, none⟩) ∧
    (∀ cid canon, ScriptBackend.correct_flags.lookup cid = some canon →
      req.get "challenge_id" = .str cid → req.get "flag" = .null →
      ScriptBackend.main req =
        ⟨[.obj [("status", .str "rejected"), ("message", .str "wrong flag")]], [], 0, none⟩) := by
  constructor
  · intro hc
    simp [ScriptBackend.main, ha, hc, pyEqStr, hashable, dictLookup]
  · intro cid canon hk hc hf
    simp [ScriptBackend.main, ha, hc, hf, pyEqStr, hashable, dictLookup, hk]

/-- Witness for C10 at a submit request with no challenge_id and at one
with challenge 1 and no flag. -/
theorem submit_total_on_absent_fields_witness :
    ScriptBackend.main [("action", .str "submit")] =
      ⟨[.obj [("status", .str "error"), ("message", .str "unknown challenge")]], [], 0, none⟩ ∧
    ScriptBackend.main [("action", .str "submit"), ("challenge_id", .str "1")] =
      ⟨[.obj [("status", .str "rejected"), ("message", .str "wrong flag")]], [], 0, none⟩ := by
  refine ⟨(submit_total_on_absent_fields _ ?_).1 rfl,
    (submit_total_on_absent_fields _ ?_).2 "1" "FLAG\x7bhello\x7d" rfl rfl rfl⟩ <;> rfl
